import Mathlib

/-!
Shallow embedding of the route-planner core of MICOWEBS/Route-Finder-V1.

The repository contains two React components with near-identical logic:
`src/Components/MapComponent.js` (hook-based, state in one record updated by
`updateState`) and an unnamed flat component (thirteen separate `useState`
fields). Both are embedded below over the same session-state record:

* `PlannerState` mirrors the thirteen `useState` fields of the session.
* `fetchRouteStart` is the synchronous prefix of `fetchRoute` up to the
  `axios.post` call: the origin/destination guard, the API-key guard, the
  loading/clearing updates, and the request it issues (if any).
* `fetchRouteMerge` is the response handler: the `then`/`catch`/`finally`
  continuation applied to whatever the session state is when the response
  arrives.
* `handleSearch`, `selectLocation`, `handleRouteChange`, `resetRoute`
  mirror the remaining handlers.
* `step` packages the user-visible events into one transition function,
  also reporting the directions request an event issues (if any).

Numbers are modelled as exact rationals; `jsToFixed2` mirrors JavaScript
`Number.prototype.toFixed(2)` on the non-negative values that occur here
(round to nearest hundredth, ties away from zero).

Definitions suffixed `2` are the flat component's versions, transcribed
separately from the unnamed source file for the equivalence claim.
-/

/-- A map coordinate as stored in session state: `{ lat, lng }`. -/
structure Coord where
  lat : ℚ
  lng : ℚ
deriving DecidableEq, Repr

/-- The `properties.summary` object of one directions-response feature:
distance in meters, duration in seconds. -/
structure FeatureSummary where
  distance : ℚ
  duration : ℚ
deriving DecidableEq, Repr

/-- One feature of the directions response: `geometry.coordinates` is a list
of `[lng, lat]` pairs, plus the summary. -/
structure Feature where
  geometry : List (ℚ × ℚ)
  summary : FeatureSummary
deriving DecidableEq, Repr

/-- One converted route candidate as stored in `routes`:
`{ coordinates, distance, duration }` with distance/duration already
formatted to two decimals. -/
structure Route where
  coordinates : List Coord
  distance : String
  duration : String
deriving DecidableEq, Repr

/-- One Nominatim forward-geocoding result as used by the component:
`result.display_name`, `result.lat`, `result.lon`. -/
structure SearchResult where
  display_name : String
  lat : ℚ
  lon : ℚ
deriving DecidableEq, Repr

/-- The session state: the thirteen fields initialised by `useState` in both
components. -/
structure PlannerState where
  origin : Option Coord
  destination : Option Coord
  originName : String
  destinationName : String
  routes : List Route
  selectedRouteIndex : Nat
  distance : String
  duration : String
  searchTerm : String
  searchResults : List SearchResult
  mode : String
  isLoadingRoute : Bool
  routeError : String
deriving DecidableEq, Repr

/-- The initial session state at session start. -/
def initialState : PlannerState :=
  { origin := none
    destination := none
    originName := ""
    destinationName := ""
    routes := []
    selectedRouteIndex := 0
    distance := ""
    duration := ""
    searchTerm := ""
    searchResults := []
    mode := "driving-car"
    isLoadingRoute := false
    routeError := "" }

/-- JavaScript `x.toFixed(2)` for the non-negative rationals produced by the
meter/second conversions: the integer closest to `100 * x` (ties to the
larger), printed with two digits after the point. -/
def jsToFixed2 (q : ℚ) : String :=
  let n : ℤ := ⌊q * 100 + 1 / 2⌋
  let whole : ℤ := n / 100
  let frac : ℤ := n % 100
  toString whole ++ "." ++ (if frac < 10 then "0" ++ toString frac else toString frac)

/-- Conversion of one response feature into a route candidate
(`data.features.map(...)` in the hook component): swaps each `[lng, lat]`
pair into `{ lat, lng }`, divides meters by 1000 and seconds by 60, and
formats both with `toFixed(2)`. -/
def convertFeature (f : Feature) : Route :=
  { coordinates := f.geometry.map fun p => { lat := p.2, lng := p.1 }
    distance := jsToFixed2 (f.summary.distance / 1000)
    duration := jsToFixed2 (f.summary.duration / 60) }

/-- The directions request `fetchRoute` posts: URL (mode-dependent), the
`[ [o.lng,o.lat], [d.lng,d.lat] ]` coordinate body, the fixed
alternative-route parameters, and the authorization header. -/
structure RouteRequest where
  url : String
  coordinates : List (ℚ × ℚ)
  targetCount : Nat
  weightFactor : ℚ
  shareFactor : ℚ
  authorization : String
deriving DecidableEq, Repr

/-- Result of the synchronous prefix of `fetchRoute`: the state after the
updates made before any response arrives, and the request issued (none when
a guard rejected). -/
structure StartResult where
  state : PlannerState
  request : Option RouteRequest
deriving DecidableEq, Repr

/-- Synchronous prefix of the hook component's `fetchRoute`: reject with an
error message if origin or destination is absent, reject if the API key is
the empty string, otherwise set the loading flag, clear error/routes/
distance/duration, and issue the directions request. -/
def fetchRouteStart (apiKey : String) (s : PlannerState) : StartResult :=
  match s.origin, s.destination with
  | some o, some d =>
    if apiKey = "" then
      { state := { s with routeError := "API key is missing." }, request := none }
    else
      { state :=
          { s with
            isLoadingRoute := true
            routeError := ""
            routes := []
            distance := ""
            duration := "" }
        request := some
          { url := "https://api.openrouteservice.org/v2/directions/" ++ s.mode ++ "/geojson"
            coordinates := [(o.lng, o.lat), (d.lng, d.lat)]
            targetCount := 3
            weightFactor := 14 / 10
            shareFactor := 6 / 10
            authorization := apiKey } }
  | _, _ =>
    { state := { s with routeError := "Please set both origin and destination." }
      request := none }

/-- Outcome of the directions call: the response's feature list, or a
network/service failure carrying a message. -/
inductive FetchResult where
  | ok (features : List Feature)
  | err (msg : String)
deriving DecidableEq, Repr

/-- The hook component's `fetchRoute` continuation, applied to the session
state current when the response arrives: an empty feature list throws
"No routes found." into the catch; otherwise the converted candidates are
stored with index 0 and candidate 0's formatted distance/duration; failures
set `routeError`; `finally` clears the loading flag. The current state is
updated unconditionally — nothing compares it with the request parameters. -/
def fetchRouteMerge (res : FetchResult) (cur : PlannerState) : PlannerState :=
  match res with
  | .ok [] =>
    { cur with routeError := "Failed to fetch route: No routes found."
               isLoadingRoute := false }
  | .ok (f :: rest) =>
    let routes := (f :: rest).map convertFeature
    { cur with routes := routes
               selectedRouteIndex := 0
               distance := (convertFeature f).distance ++ " km"
               duration := (convertFeature f).duration ++ " min"
               isLoadingRoute := false }
  | .err msg =>
    { cur with routeError := "Failed to fetch route: " ++ msg
               isLoadingRoute := false }

/-- Outcome of the forward-geocoding (address search) call. -/
inductive SearchOutcome where
  | ok (results : List SearchResult)
  | failed
deriving DecidableEq, Repr

/-- The hook component's `handleSearch` for input `term`, given the network
outcome: stores the term; a term shorter than 3 characters clears the
results and makes no call; otherwise a successful call stores the data and
a failed call only logs. The boolean reports whether a network call was
made. -/
def handleSearch (term : String) (out : SearchOutcome) (s : PlannerState) :
    PlannerState × Bool :=
  if term.length < 3 then
    ({ s with searchTerm := term, searchResults := [] }, false)
  else
    match out with
    | .ok rs => ({ s with searchTerm := term, searchResults := rs }, true)
    | .failed => ({ s with searchTerm := term }, true)

/-- The hook component's `selectLocation`: a search-result click fills the
origin if it is absent, otherwise the destination, then clears the search
box and results. (The asynchronous name resolution is a separate event.) -/
def selectLocation (lat lon : ℚ) (s : PlannerState) : PlannerState :=
  let loc : Coord := { lat := lat, lng := lon }
  let s1 :=
    if s.origin.isNone then { s with origin := some loc }
    else { s with destination := some loc }
  { s1 with searchResults := [], searchTerm := "" }

/-- The hook component's `handleRouteChange index`: reads
`state.routes[index]` and stores the index together with that candidate's
formatted distance/duration. An out-of-range index makes
`state.routes[index]` `undefined` and the handler throw, modelled as
`none`. -/
def handleRouteChange (index : Nat) (s : PlannerState) : Option PlannerState :=
  (s.routes[index]?).map fun r =>
    { s with selectedRouteIndex := index
             distance := r.distance ++ " km"
             duration := r.duration ++ " min" }

/-- The hook component's `resetRoute`: clears the eleven listed fields
(`origin` … `searchResults`). `mode` and `isLoadingRoute` are not among
them. -/
def resetRoute (s : PlannerState) : PlannerState :=
  { s with origin := none
           destination := none
           originName := ""
           destinationName := ""
           routes := []
           selectedRouteIndex := 0
           distance := ""
           duration := ""
           routeError := ""
           searchTerm := ""
           searchResults := [] }

/-- The user-visible events of a session, each carrying the data the
corresponding handler receives (network outcomes included, since the
single-threaded event loop processes completions as events). -/
inductive Event where
  | mapClick (c : Coord)
  | selectLoc (lat lon : ℚ)
  | originNameResolved (name : String)
  | destNameResolved (name : String)
  | searchInput (term : String) (out : SearchOutcome)
  | modeChange (m : String)
  | fetchInvoke (apiKey : String)
  | fetchResponse (res : FetchResult)
  | selectRoute (i : Nat)
  | reset
deriving DecidableEq, Repr

/-- One event-loop step: the state after handling the event, paired with the
directions request the event issues (only `fetchInvoke` can issue one).
`none` marks an event the UI cannot deliver in this state: `selectRoute i`
exists only for the rendered per-route buttons, indices `0 ≤ i <
routes.length`. A map click fills origin when absent, otherwise the
destination slot. -/
def step (e : Event) (s : PlannerState) :
    Option (PlannerState × Option RouteRequest) :=
  match e with
  | .mapClick c =>
    some (if s.origin.isNone then { s with origin := some c }
          else { s with destination := some c }, none)
  | .selectLoc lat lon => some (selectLocation lat lon s, none)
  | .originNameResolved n => some ({ s with originName := n }, none)
  | .destNameResolved n => some ({ s with destinationName := n }, none)
  | .searchInput t out => some ((handleSearch t out s).1, none)
  | .modeChange m => some ({ s with mode := m }, none)
  | .fetchInvoke key =>
    let r := fetchRouteStart key s
    some (r.state, r.request)
  | .fetchResponse res => some (fetchRouteMerge res s, none)
  | .selectRoute i => (handleRouteChange i s).map fun s2 => (s2, none)
  | .reset => some (resetRoute s, none)

/-- Session states reachable from the initial state by event-loop steps. -/
inductive Reachable : PlannerState → Prop where
  | init : Reachable initialState
  | next (s s2 : PlannerState) (e : Event) (req : Option RouteRequest) :
      Reachable s → step e s = some (s2, req) → Reachable s2

/-- The RouteSet invariant: whenever the route list is non-empty, the
selected index is a valid position in it. -/
def goodIndex (s : PlannerState) : Prop :=
  s.routes ≠ [] → s.selectedRouteIndex < s.routes.length

/-! ### The flat component (unnamed source file)

The same handlers transcribed from the second implementation, which keeps
thirteen separate `useState` fields. The field set, initial values and
logic coincide with the hook component except for two error-message
wordings inside `fetchRoute`. -/

/-- Feature conversion in the flat component's `fetchRoute`
(`response.data.features.map(...)`). -/
def convertFeature2 (f : Feature) : Route :=
  { coordinates := f.geometry.map fun p => { lat := p.2, lng := p.1 }
    distance := jsToFixed2 (f.summary.distance / 1000)
    duration := jsToFixed2 (f.summary.duration / 60) }

/-- Synchronous prefix of the flat component's `fetchRoute`: same guards and
updates as the hook version, but the missing-key message reads "API key is
missing. Please configure the OpenRouteService API key." -/
def fetchRoute2Start (apiKey : String) (s : PlannerState) : StartResult :=
  match s.origin, s.destination with
  | some o, some d =>
    if apiKey = "" then
      { state :=
          { s with
            routeError :=
              "API key is missing. Please configure the OpenRouteService API key." }
        request := none }
    else
      { state :=
          { s with
            isLoadingRoute := true
            routeError := ""
            routes := []
            distance := ""
            duration := "" }
        request := some
          { url := "https://api.openrouteservice.org/v2/directions/" ++ s.mode ++ "/geojson"
            coordinates := [(o.lng, o.lat), (d.lng, d.lat)]
            targetCount := 3
            weightFactor := 14 / 10
            shareFactor := 6 / 10
            authorization := apiKey } }
  | _, _ =>
    { state := { s with routeError := "Please set both origin and destination." }
      request := none }

/-- The flat component's `fetchRoute` response continuation: as the hook
version, but an empty feature list throws "No routes found in the API
response." -/
def fetchRoute2Merge (res : FetchResult) (cur : PlannerState) : PlannerState :=
  match res with
  | .ok [] =>
    { cur with
      routeError := "Failed to fetch route: No routes found in the API response."
      isLoadingRoute := false }
  | .ok (f :: rest) =>
    let fetchedRoutes := (f :: rest).map convertFeature2
    { cur with routes := fetchedRoutes
               selectedRouteIndex := 0
               distance := (convertFeature2 f).distance ++ " km"
               duration := (convertFeature2 f).duration ++ " min"
               isLoadingRoute := false }
  | .err msg =>
    { cur with routeError := "Failed to fetch route: " ++ msg
               isLoadingRoute := false }

/-- The flat component's `handleSearch` (same structure as the hook
version). -/
def handleSearch2 (term : String) (out : SearchOutcome) (s : PlannerState) :
    PlannerState × Bool :=
  if term.length < 3 then
    ({ s with searchTerm := term, searchResults := [] }, false)
  else
    match out with
    | .ok rs => ({ s with searchTerm := term, searchResults := rs }, true)
    | .failed => ({ s with searchTerm := term }, true)

/-- The flat component's `handleRouteChange` (`setSelectedRouteIndex`,
`setDistance`, `setDuration` from `routes[index]`). -/
def handleRouteChange2 (index : Nat) (s : PlannerState) : Option PlannerState :=
  (s.routes[index]?).map fun r =>
    { s with selectedRouteIndex := index
             distance := r.distance ++ " km"
             duration := r.duration ++ " min" }

/-- The flat component's `resetRoute`: the same eleven setters; `mode` and
`isLoadingRoute` are again untouched. -/
def resetRoute2 (s : PlannerState) : PlannerState :=
  { s with origin := none
           destination := none
           originName := ""
           destinationName := ""
           routes := []
           selectedRouteIndex := 0
           distance := ""
           duration := ""
           routeError := ""
           searchTerm := ""
           searchResults := [] }

/-- A state with its error message blanked, for comparing the two
implementations up to error-message wording. -/
def eraseError (s : PlannerState) : PlannerState :=
  { s with routeError := "" }

/-- Session state used to exhibit the stale-response overwrite: both
endpoints set, mode still the initial driving-car. -/
def staleBase : PlannerState :=
  { initialState with
    origin := some { lat := 515 / 10, lng := -1 / 10 }
    destination := some { lat := 5151 / 100, lng := -2 / 25 } }

/-- The session state current when the stale response arrives: the fetch
was started (for driving-car) and the user then switched the mode to
cycling-regular. -/
def staleCur : PlannerState :=
  { (fetchRouteStart "KEY" staleBase).state with mode := "cycling-regular" }

/-- The single feature carried by the stale driving-car response. -/
def staleFeature : Feature :=
  { geometry := [], summary := { distance := 5000, duration := 600 } }

/-! ### Claim theorems -/

/-- Claim C1 fails on the code: the response continuation updates whatever
state is current without comparing it to the requested
origin/destination/mode triple. A request issued for mode driving-car whose
response arrives after the mode changed to cycling-regular still overwrites
the RouteSet. -/
theorem c1_stale_merge_overwrites :
    (∃ req, (fetchRouteStart "KEY" staleBase).request = some req ∧
      req.url = "https://api.openrouteservice.org/v2/directions/driving-car/geojson") ∧
    staleCur.mode ≠ "driving-car" ∧
    staleCur.routes = [] ∧
    (fetchRouteMerge (.ok [staleFeature]) staleCur).routes = [convertFeature staleFeature] ∧
    fetchRouteMerge (.ok [staleFeature]) staleCur ≠ staleCur := by
  refine ⟨⟨_, rfl, rfl⟩, by decide, rfl, rfl, ?_⟩
  intro h
  have hr : (fetchRouteMerge (.ok [staleFeature]) staleCur).routes = staleCur.routes := by
    rw [h]
  simp [fetchRouteMerge, staleCur, staleBase, fetchRouteStart] at hr

/-- Claim C2: with origin or destination absent, invoking the route fetch
issues no request and changes only the error message; conversely a request
is only issued when both are present. -/
theorem c2_no_fetch_without_endpoints :
    (∀ (key : String) (s : PlannerState), s.origin = none ∨ s.destination = none →
      step (.fetchInvoke key) s =
        some ({ s with routeError := "Please set both origin and destination." }, none)) ∧
    (∀ (key : String) (s t : PlannerState) (req : RouteRequest),
      step (.fetchInvoke key) s = some (t, some req) →
      s.origin.isSome ∧ s.destination.isSome) := by
  constructor
  · intro key s h
    rcases h with h | h
    · simp [step, fetchRouteStart, h]
    · cases ho : s.origin with
      | none => simp [step, fetchRouteStart, ho]
      | some o => simp [step, fetchRouteStart, ho, h]
  · intro key s t req h
    cases ho : s.origin with
    | none => simp [step, fetchRouteStart, ho] at h
    | some o =>
      cases hd : s.destination with
      | none => simp [step, fetchRouteStart, ho, hd] at h
      | some d => simp [ho, hd]

theorem c2_witness :
    step (.fetchInvoke "K") initialState =
      some ({ initialState with routeError := "Please set both origin and destination." }, none) :=
  c2_no_fetch_without_endpoints.1 "K" initialState (Or.inl rfl)

/-- Claim C3: a candidate's displayed distance is meters divided by 1000 and
its duration is seconds divided by 60, each formatted with toFixed(2); in
particular 12345 m gives "12.35 km" and 987 s gives "16.45 min". -/
theorem c3_unit_conversion :
    (∀ f : Feature,
      (convertFeature f).distance = jsToFixed2 (f.summary.distance / 1000) ∧
      (convertFeature f).duration = jsToFixed2 (f.summary.duration / 60)) ∧
    jsToFixed2 ((12345 : ℚ) / 1000) = "12.35" ∧
    jsToFixed2 ((987 : ℚ) / 60) = "16.45" ∧
    (fetchRouteMerge
      (.ok [{ geometry := [], summary := { distance := 12345, duration := 987 } }])
      initialState).distance = "12.35 km" ∧
    (fetchRouteMerge
      (.ok [{ geometry := [], summary := { distance := 12345, duration := 987 } }])
      initialState).duration = "16.45 min" := by
  have h1 : jsToFixed2 ((12345 : ℚ) / 1000) = "12.35" := by
    unfold jsToFixed2; norm_num; decide
  have h2 : jsToFixed2 ((987 : ℚ) / 60) = "16.45" := by
    unfold jsToFixed2; norm_num; decide
  refine ⟨fun f => ⟨rfl, rfl⟩, h1, h2, ?_, ?_⟩
  · show (convertFeature _).distance ++ " km" = "12.35 km"
    simp [convertFeature, h1]
  · show (convertFeature _).duration ++ " min" = "16.45 min"
    simp [convertFeature, h2]

/-- Claim C4 as stated is false: reset does not restore every field to its
session-start value — the travel mode survives. -/
theorem c4_counterexample :
    resetRoute { initialState with mode := "foot-walking" } ≠ initialState := by
  decide

/-- Claim C4 amended: reset clears origin, destination, names, routes,
selected index, distance, duration, search term, search results and the
error, but preserves the travel mode and the loading flag. -/
theorem c4_reset_amended :
    ∀ s : PlannerState,
      resetRoute s =
        { initialState with mode := s.mode, isLoadingRoute := s.isLoadingRoute } := by
  intro s
  rfl

/-- Claim C5: a successful fetch response (at least one feature) stores the
full converted candidate list, selects index 0, and derives the displayed
distance/duration from candidate 0. -/
theorem c5_success_merge :
    ∀ (f : Feature) (rest : List Feature) (cur : PlannerState),
      step (.fetchResponse (.ok (f :: rest))) cur =
        some ({ cur with routes := (f :: rest).map convertFeature
                         selectedRouteIndex := 0
                         distance := (convertFeature f).distance ++ " km"
                         duration := (convertFeature f).duration ++ " min"
                         isLoadingRoute := false }, none) := by
  intro f rest cur
  rfl

/-- Claim C6: selecting a valid candidate index updates the index and the
displayed distance/duration to that candidate's values, issues no request,
and leaves every other field unchanged. -/
theorem c6_select_candidate :
    ∀ (s : PlannerState) (i : Nat) (h : i < s.routes.length),
      step (.selectRoute i) s =
        some ({ s with selectedRouteIndex := i
                       distance := (s.routes.get ⟨i, h⟩).distance ++ " km"
                       duration := (s.routes.get ⟨i, h⟩).duration ++ " min" }, none) := by
  intro s i h
  simp [step, handleRouteChange, List.getElem?_eq_getElem h]

theorem c6_witness :
    step (.selectRoute 0)
        { initialState with
          routes := [{ coordinates := [], distance := "1.00", duration := "2.00" }] } =
      some ({ initialState with
              routes := [{ coordinates := [], distance := "1.00", duration := "2.00" }]
              selectedRouteIndex := 0
              distance := "1.00 km"
              duration := "2.00 min" }, none) :=
  c6_select_candidate
    { initialState with
      routes := [{ coordinates := [], distance := "1.00", duration := "2.00" }] }
    0 (by decide)

/-- Claim C7: with both endpoints set, an empty API key is rejected with a
configuration error and no request; an empty feature collection yields the
"no routes found" failure message with an empty route list. -/
theorem c7_config_and_empty_errors :
    ∀ (s : PlannerState) (o d : Coord), s.origin = some o → s.destination = some d →
      step (.fetchInvoke "") s =
        some ({ s with routeError := "API key is missing." }, none) ∧
      (∀ key : String, key ≠ "" →
        (fetchRouteStart key s).request.isSome ∧
        (fetchRouteMerge (.ok []) (fetchRouteStart key s).state).routeError =
          "Failed to fetch route: No routes found." ∧
        (fetchRouteMerge (.ok []) (fetchRouteStart key s).state).routes = []) := by
  intro s o d ho hd
  constructor
  · simp [step, fetchRouteStart, ho, hd]
  · intro key hk
    simp [fetchRouteStart, fetchRouteMerge, ho, hd, hk]

theorem c7_witness :
    step (.fetchInvoke "")
        { initialState with
          origin := some { lat := 1, lng := 2 }
          destination := some { lat := 3, lng := 4 } } =
      some ({ initialState with
              origin := some { lat := 1, lng := 2 }
              destination := some { lat := 3, lng := 4 }
              routeError := "API key is missing." }, none) ∧
    (fetchRouteMerge (.ok [])
        (fetchRouteStart "K"
          { initialState with
            origin := some { lat := 1, lng := 2 }
            destination := some { lat := 3, lng := 4 } }).state).routeError =
      "Failed to fetch route: No routes found." := by
  have h := c7_config_and_empty_errors
    { initialState with
      origin := some { lat := 1, lng := 2 }
      destination := some { lat := 3, lng := 4 } }
    { lat := 1, lng := 2 } { lat := 3, lng := 4 } rfl rfl
  exact ⟨h.1, (h.2 "K" (by decide)).2.1⟩

/-- Claim C8 as stated is false: when the search network call fails, the
handler only logs — it does not clear previously stored search results, so
they need not be empty afterwards. -/
theorem c8_counterexample :
    ((handleSearch "london" .failed
        { initialState with
          searchResults := [{ display_name := "Previous", lat := 1, lon := 2 }] }).1).searchResults
      ≠ [] := by
  decide

/-- Claim C8 amended: a query shorter than 3 characters makes no network
call and clears the result list; a failed call leaves the stored results
and the error message exactly as they were (no user-visible error). -/
theorem c8_search_amended :
    (∀ (t : String) (out : SearchOutcome) (s : PlannerState), t.length < 3 →
      handleSearch t out s = ({ s with searchTerm := t, searchResults := [] }, false)) ∧
    (∀ (t : String) (s : PlannerState), 3 ≤ t.length →
      handleSearch t .failed s = ({ s with searchTerm := t }, true)) := by
  constructor
  · intro t out s h
    simp [handleSearch, h]
  · intro t s h
    simp [handleSearch, Nat.not_lt.mpr h]

theorem c8_witness :
    handleSearch "ab" .failed initialState =
      ({ initialState with searchTerm := "ab", searchResults := [] }, false) ∧
    handleSearch "london" .failed initialState =
      ({ initialState with searchTerm := "london" }, true) :=
  ⟨c8_search_amended.1 "ab" .failed initialState (by decide),
   c8_search_amended.2 "london" initialState (by decide)⟩

lemma goodIndex_initial : goodIndex initialState := by
  intro h
  simp [initialState] at h

lemma goodIndex_update_preserved {s t : PlannerState}
    (hr : t.routes = s.routes) (hi : t.selectedRouteIndex = s.selectedRouteIndex)
    (h : goodIndex s) : goodIndex t := by
  intro hne
  rw [hr, hi] at *
  exact h (by rwa [hr] at hne)

lemma goodIndex_fetchRouteStart (key : String) {s : PlannerState}
    (h : goodIndex s) : goodIndex (fetchRouteStart key s).state := by
  unfold fetchRouteStart
  cases ho : s.origin with
  | none => exact h
  | some o =>
    cases hd : s.destination with
    | none => exact h
    | some d =>
      by_cases hk : key = ""
      · simp only [hk, if_pos rfl]
        exact h
      · simp only [if_neg hk]
        intro hne
        simp at hne
  
lemma goodIndex_fetchRouteMerge (res : FetchResult) {s : PlannerState}
    (h : goodIndex s) : goodIndex (fetchRouteMerge res s) := by
  cases res with
  | ok features =>
    cases features with
    | nil => exact h
    | cons f rest =>
      intro _
      simp [fetchRouteMerge]
  | err msg => exact h

/-- Claim C9: in every session state reachable by the user-visible events,
a non-empty route list has a valid selected index. -/
theorem c9_selected_index_invariant :
    ∀ s : PlannerState, Reachable s → goodIndex s := by
  intro s h
  induction h with
  | init => exact goodIndex_initial
  | next s s2 e req hr hstep ih =>
    cases e with
    | mapClick c =>
      simp only [step, Option.some.injEq, Prod.mk.injEq] at hstep
      obtain ⟨h1, -⟩ := hstep
      subst h1
      by_cases ho : s.origin.isNone
      · simp only [if_pos ho]
        exact goodIndex_update_preserved rfl rfl ih
      · simp only [if_neg ho]
        exact goodIndex_update_preserved rfl rfl ih
    | selectLoc lat lon =>
      simp only [step, Option.some.injEq, Prod.mk.injEq] at hstep
      obtain ⟨h1, -⟩ := hstep
      subst h1
      unfold selectLocation
      by_cases ho : s.origin.isNone
      · simp only [if_pos ho]
        exact goodIndex_update_preserved rfl rfl ih
      · simp only [if_neg ho]
        exact goodIndex_update_preserved rfl rfl ih
    | originNameResolved n =>
      simp only [step, Option.some.injEq, Prod.mk.injEq] at hstep
      obtain ⟨h1, -⟩ := hstep
      subst h1
      exact goodIndex_update_preserved rfl rfl ih
    | destNameResolved n =>
      simp only [step, Option.some.injEq, Prod.mk.injEq] at hstep
      obtain ⟨h1, -⟩ := hstep
      subst h1
      exact goodIndex_update_preserved rfl rfl ih
    | searchInput t out =>
      simp only [step, Option.some.injEq, Prod.mk.injEq] at hstep
      obtain ⟨h1, -⟩ := hstep
      subst h1
      unfold handleSearch
      by_cases hl : t.length < 3
      · simp only [if_pos hl]
        exact goodIndex_update_preserved rfl rfl ih
      · simp only [if_neg hl]
        cases out with
        | ok rs => exact goodIndex_update_preserved rfl rfl ih
        | failed => exact goodIndex_update_preserved rfl rfl ih
    | modeChange m =>
      simp only [step, Option.some.injEq, Prod.mk.injEq] at hstep
      obtain ⟨h1, -⟩ := hstep
      subst h1
      exact goodIndex_update_preserved rfl rfl ih
    | fetchInvoke key =>
      simp only [step, Option.some.injEq, Prod.mk.injEq] at hstep
      obtain ⟨h1, -⟩ := hstep
      subst h1
      exact goodIndex_fetchRouteStart key ih
    | fetchResponse res =>
      simp only [step, Option.some.injEq, Prod.mk.injEq] at hstep
      obtain ⟨h1, -⟩ := hstep
      subst h1
      exact goodIndex_fetchRouteMerge res ih
    | selectRoute i =>
      simp only [step, Option.map_eq_some'] at hstep
      obtain ⟨s3, hs3, heq⟩ := hstep
      simp only [Prod.mk.injEq] at heq
      obtain ⟨h1, -⟩ := heq
      subst h1
      unfold handleRouteChange at hs3
      rw [Option.map_eq_some'] at hs3
      obtain ⟨r, hr, hmk⟩ := hs3
      have hlt : i < s.routes.length := by
        by_contra hge
        rw [List.getElem?_eq_none (Nat.le_of_not_lt hge)] at hr
        exact Option.noConfusion hr
      subst hmk
      intro _
      simpa using hlt
    | reset =>
      simp only [step, Option.some.injEq, Prod.mk.injEq] at hstep
      obtain ⟨h1, -⟩ := hstep
      subst h1
      intro hne
      simp [resetRoute] at hne

theorem c9_witness : goodIndex initialState :=
  c9_selected_index_invariant initialState Reachable.init

/-- Claim C10 as stated is false: the two implementations also disagree on
the empty-result error message, not only on the missing-credential one —
on an empty feature collection the hook component reports "Failed to fetch
route: No routes found." while the flat component reports "Failed to fetch
route: No routes found in the API response." -/
theorem c10_counterexample :
    (fetchRoute2Merge (.ok []) initialState).routeError ≠
      (fetchRouteMerge (.ok []) initialState).routeError ∧
    (fetchRouteMerge (.ok []) initialState).routeError ≠ "API key is missing." ∧
    (fetchRoute2Merge (.ok []) initialState).routeError ≠
      "API key is missing. Please configure the OpenRouteService API key." := by
  refine ⟨by decide, by decide, by decide⟩

/-- Claim C10 amended: the two implementations agree on feature conversion,
candidate selection, reset, search handling, the requests they issue, and
all fetch transitions, except that the missing-credential and empty-result
error messages are worded differently (states then agree with the error
field blanked). -/
theorem c10_equivalence_amended :
    (∀ f : Feature, convertFeature2 f = convertFeature f) ∧
    (∀ (i : Nat) (s : PlannerState), handleRouteChange2 i s = handleRouteChange i s) ∧
    (∀ s : PlannerState, resetRoute2 s = resetRoute s) ∧
    (∀ (t : String) (out : SearchOutcome) (s : PlannerState),
      handleSearch2 t out s = handleSearch t out s) ∧
    (∀ (key : String) (s : PlannerState),
      (fetchRoute2Start key s).request = (fetchRouteStart key s).request ∧
      eraseError (fetchRoute2Start key s).state = eraseError (fetchRouteStart key s).state) ∧
    (∀ (key : String) (s : PlannerState),
      s.origin.isSome → s.destination.isSome → key ≠ "" →
      fetchRoute2Start key s = fetchRouteStart key s) ∧
    (∀ (res : FetchResult) (cur : PlannerState),
      eraseError (fetchRoute2Merge res cur) = eraseError (fetchRouteMerge res cur)) ∧
    (∀ (fs : List Feature) (cur : PlannerState), fs ≠ [] →
      fetchRoute2Merge (.ok fs) cur = fetchRouteMerge (.ok fs) cur) ∧
    (∀ (m : String) (cur : PlannerState),
      fetchRoute2Merge (.err m) cur = fetchRouteMerge (.err m) cur) := by
  refine ⟨fun f => rfl, fun i s => rfl, fun s => rfl, ?_, ?_, ?_, ?_, ?_, fun m cur => rfl⟩
  · intro t out s
    unfold handleSearch2 handleSearch
    cases out <;> rfl
  · intro key s
    unfold fetchRoute2Start fetchRouteStart
    cases ho : s.origin with
    | none => constructor <;> rfl
    | some o =>
      cases hd : s.destination with
      | none => constructor <;> rfl
      | some d =>
        by_cases hk : key = ""
        · simp only [if_pos hk]
          constructor <;> trivial
        · simp only [if_neg hk]
          constructor <;> trivial
  · intro key s ho hd hk
    unfold fetchRoute2Start fetchRouteStart
    cases hoe : s.origin with
    | none => simp [hoe] at ho
    | some o =>
      cases hde : s.destination with
      | none => simp [hde] at hd
      | some d => simp only [if_neg hk]
  · intro res cur
    cases res with
    | ok features => cases features <;> rfl
    | err m => rfl
  · intro fs cur h
    cases fs with
    | nil => exact absurd rfl h
    | cons f rest => rfl

theorem c10_witness :
    fetchRoute2Start "K"
        { initialState with
          origin := some { lat := 1, lng := 2 }
          destination := some { lat := 3, lng := 4 } } =
      fetchRouteStart "K"
        { initialState with
          origin := some { lat := 1, lng := 2 }
          destination := some { lat := 3, lng := 4 } } ∧
    fetchRoute2Merge (.ok [{ geometry := [], summary := { distance := 100, duration := 60 } }])
        initialState =
      fetchRouteMerge (.ok [{ geometry := [], summary := { distance := 100, duration := 60 } }])
        initialState :=
  ⟨c10_equivalence_amended.2.2.2.2.2.1 "K"
      { initialState with
        origin := some { lat := 1, lng := 2 }
        destination := some { lat := 3, lng := 4 } }
      rfl rfl (by decide),
   c10_equivalence_amended.2.2.2.2.2.2.2.1
      [{ geometry := [], summary := { distance := 100, duration := 60 } }]
      initialState (by decide)⟩
